import Mathlib

/-!
Verification of `migrate.py`, a MongoDB collection-migration orchestrator built
on a mongodump → mongorestore pipeline.  The development shallowly embeds:

* `convert_extended_json_to_native` — the Extended-JSON filter translator
  (dates tagged `{"$date": ...}` become native timestamps);
* `update_migration_log` — the audit-log upsert (`update_one` with
  `upsert=True`, keyed by `source_db`/`source_collection`);
* `migrate_collection` — the per-collection job: initial `running` audit
  write, the dump/restore process pipeline, post-transfer count
  verification, final audit write, and connection handling.

External effects (store connections, process exit codes, captured stderr,
record counts, wall-clock readings) are supplied by an explicit `Env`
oracle; the embedding threads the audit store explicitly and records an
observable `Trace` of the side effects the job performs (processes spawned,
connections opened/closed, count filters used).

Python standard-library helpers that the script calls
(`datetime.fromisoformat`, `json.loads`) are modelled as executable Lean
parsers over the input subset the script exercises; each is documented at
its definition site.
-/

/-- Result of Python `datetime.fromisoformat`: a naive or offset-aware
datetime.  `tzOffsetMinutes = none` models a naive datetime, `some m` an
offset of `m` minutes from UTC. -/
structure PyDatetime where
  year : Nat
  month : Nat
  day : Nat
  hour : Nat
  minute : Nat
  second : Nat
  microsecond : Nat
  tzOffsetMinutes : Option Int
deriving DecidableEq, Repr

/-- Interprets a non-empty all-digit character list as a decimal number. -/
def parseDigits (cs : List Char) : Option Nat :=
  if cs ≠ [] ∧ cs.all Char.isDigit then
    some (cs.foldl (fun a c => a * 10 + (c.toNat - 48)) 0)
  else
    Option.none

/-- Gregorian leap-year test, as used by Python `datetime` date validation. -/
def isLeapYear (y : Nat) : Bool :=
  (y % 4 == 0 && y % 100 != 0) || y % 400 == 0

/-- Number of days in a month, as used by Python `datetime` date validation. -/
def daysInMonth (y m : Nat) : Nat :=
  if m = 2 then (if isLeapYear y then 29 else 28)
  else if m = 4 ∨ m = 6 ∨ m = 9 ∨ m = 11 then 30
  else 31

/-- Parses the optional UTC-offset tail `±HH:MM` of an ISO-8601 time.
Outer `none` is a parse failure; `some none` means no offset (naive). -/
def parseOffsetTail (cs : List Char) : Option (Option Int) :=
  match cs with
  | [] => some Option.none
  | s :: h1 :: h2 :: ':' :: m1 :: m2 :: [] =>
    match parseDigits [h1, h2], parseDigits [m1, m2] with
    | some oh, some om =>
      if (s = '+' ∨ s = '-') ∧ oh ≤ 23 ∧ om ≤ 59 then
        some (some (if s = '-' then -(((oh * 60 + om : Nat) : Int)) else ((oh * 60 + om : Nat) : Int)))
      else Option.none
    | _, _ => Option.none
  | _ => Option.none

/-- Parses the fractional-seconds part (exactly 3 or 6 digits, as accepted by
Python < 3.11 `fromisoformat`) followed by the optional offset tail.  Returns
the microsecond value and the offset. -/
def parseFracAndOffset (cs : List Char) : Option (Nat × Option Int) :=
  match cs with
  | [] => some (0, Option.none)
  | '.' :: rest =>
    let ds := rest.takeWhile Char.isDigit
    let rest2 := rest.dropWhile Char.isDigit
    if ds.length = 3 then
      match parseDigits ds, parseOffsetTail rest2 with
      | some f, some tz => some (f * 1000, tz)
      | _, _ => Option.none
    else if ds.length = 6 then
      match parseDigits ds, parseOffsetTail rest2 with
      | some f, some tz => some (f, tz)
      | _, _ => Option.none
    else Option.none
  | _ =>
    match parseOffsetTail cs with
    | some tz => some (0, tz)
    | Option.none => Option.none

/-- Parses the time-of-day part `HH:MM:SS[.fff|.ffffff][±HH:MM]`. -/
def parseTimePart (cs : List Char) : Option (Nat × Nat × Nat × Nat × Option Int) :=
  match cs with
  | h1 :: h2 :: ':' :: m1 :: m2 :: ':' :: s1 :: s2 :: rest =>
    match parseDigits [h1, h2], parseDigits [m1, m2], parseDigits [s1, s2] with
    | some h, some mi, some se =>
      if h ≤ 23 ∧ mi ≤ 59 ∧ se ≤ 59 then
        match parseFracAndOffset rest with
        | some (us, tz) => some (h, mi, se, us, tz)
        | Option.none => Option.none
      else Option.none
    | _, _, _ => Option.none
  | _ => Option.none

/-- Model of Python `datetime.fromisoformat` (standard library, not part of
the repository) on the grammar accepted before Python 3.11:
`YYYY-MM-DD[<sep>HH:MM:SS[.fff|.ffffff][±HH:MM]]` with calendar validation.
This is the parser the script relies on after stripping a trailing `Z`. -/
def fromisoformat (s : String) : Option PyDatetime :=
  match s.toList with
  | y1 :: y2 :: y3 :: y4 :: '-' :: m1 :: m2 :: '-' :: d1 :: d2 :: rest =>
    match parseDigits [y1, y2, y3, y4], parseDigits [m1, m2], parseDigits [d1, d2] with
    | some y, some mo, some d =>
      if 1 ≤ y ∧ 1 ≤ mo ∧ mo ≤ 12 ∧ 1 ≤ d ∧ d ≤ daysInMonth y mo then
        match rest with
        | [] => some ⟨y, mo, d, 0, 0, 0, 0, Option.none⟩
        | _ :: timeCs =>
          match parseTimePart timeCs with
          | some (h, mi, se, us, tz) => some ⟨y, mo, d, h, mi, se, us, tz⟩
          | Option.none => Option.none
      else Option.none
    | _, _, _ => Option.none
  | _ => Option.none

/-- The normalization at `migrate.py:122-123`: a trailing `Z` is replaced by
the explicit zero offset `+00:00` before the string is handed to
`datetime.fromisoformat`.  (Stated over the character list so that it
evaluates inside the kernel; `getLast? = some Z` is Python
`dt_str.endswith(Z)` and `dropLast` is `dt_str[:-1]`.) -/
def normalizeZuluSuffix (s : String) : String :=
  if s.toList.getLast? = some 'Z' then String.mk (s.toList.dropLast ++ "+00:00".toList) else s

example :
    fromisoformat (normalizeZuluSuffix "2018-02-15T15:55:00.176Z") =
      some ⟨2018, 2, 15, 15, 55, 0, 176000, some 0⟩ := by decide

example : fromisoformat "2018-02-30T00:00:00" = Option.none := by decide

/-- A Python value as handled by `convert_extended_json_to_native`
(`migrate.py:113-136`): the JSON universe (dict / list / string / number /
bool / null) extended with the native `datetime` values the translator
substitutes for `{"$date": ...}` wrappers. -/
inductive PyVal where
  | str : String → PyVal
  | num : Int → PyVal
  | bool : Bool → PyVal
  | null : PyVal
  | arr : List PyVal → PyVal
  | obj : List (String × PyVal) → PyVal
  | time : PyDatetime → PyVal

/-- First-match association-list lookup; dictionaries are modelled as
association lists with distinct keys, so this is Python `obj[key]` /
`key in obj`. -/
def lookupKey {α : Type} : List (String × α) → String → Option α
  | [], _ => Option.none
  | (k2, v) :: rest, k => if k2 = k then some v else lookupKey rest k

mutual

/-- `convert_extended_json_to_native` (`migrate.py:113-136`).  A dict whose
sole key is `$date` becomes a native datetime (the string is Z-normalized and
parsed; a malformed string raises, modelled as `Except.error`, as does a
`$date` value that is not a string, since Python would hit an
`AttributeError` on `.endswith`).  Other dicts are rebuilt key by key,
lists element-wise, and every other value passes through unchanged. -/
def convert_extended_json_to_native : PyVal → Except String PyVal
  | PyVal.obj kvs =>
    if (lookupKey kvs "$date").isSome && kvs.length == 1 then
      match lookupKey kvs "$date" with
      | some (PyVal.str dtStr) =>
        match fromisoformat (normalizeZuluSuffix dtStr) with
        | some t => Except.ok (PyVal.time t)
        | Option.none => Except.error ("Invalid isoformat string: " ++ normalizeZuluSuffix dtStr)
      | _ => Except.error "AttributeError: $date value has no endswith method"
    else
      match convertObjEntries kvs with
      | Except.ok kvs2 => Except.ok (PyVal.obj kvs2)
      | Except.error e => Except.error e
  | PyVal.arr xs =>
    match convertArrElems xs with
    | Except.ok xs2 => Except.ok (PyVal.arr xs2)
    | Except.error e => Except.error e
  | v => Except.ok v

/-- The `for key, value in obj.items()` loop of
`convert_extended_json_to_native`, building `new_dict` entry by entry. -/
def convertObjEntries : List (String × PyVal) → Except String (List (String × PyVal))
  | [] => Except.ok []
  | (k, v) :: rest =>
    match convert_extended_json_to_native v with
    | Except.error e => Except.error e
    | Except.ok v2 =>
      match convertObjEntries rest with
      | Except.error e => Except.error e
      | Except.ok rest2 => Except.ok ((k, v2) :: rest2)

/-- The list comprehension of `convert_extended_json_to_native` translating
each element of a list. -/
def convertArrElems : List PyVal → Except String (List PyVal)
  | [] => Except.ok []
  | v :: rest =>
    match convert_extended_json_to_native v with
    | Except.error e => Except.error e
    | Except.ok v2 =>
      match convertArrElems rest with
      | Except.error e => Except.error e
      | Except.ok rest2 => Except.ok (v2 :: rest2)

end

mutual

/-- Holds when the value contains no dict whose sole key is `$date`
anywhere inside it, i.e. nothing that triggers the date branch of
`convert_extended_json_to_native`. -/
def noSoleDateTag : PyVal → Bool
  | PyVal.obj kvs => (!((lookupKey kvs "$date").isSome && kvs.length == 1)) && noSoleDateTagEntries kvs
  | PyVal.arr xs => noSoleDateTagElems xs
  | _ => true

/-- `noSoleDateTag` over the values of a dict. -/
def noSoleDateTagEntries : List (String × PyVal) → Bool
  | [] => true
  | (_, v) :: rest => noSoleDateTag v && noSoleDateTagEntries rest

/-- `noSoleDateTag` over the elements of a list. -/
def noSoleDateTagElems : List PyVal → Bool
  | [] => true
  | v :: rest => noSoleDateTag v && noSoleDateTagElems rest

end

example :
    convert_extended_json_to_native
      (PyVal.obj [("fld1", PyVal.obj [("$gt",
        PyVal.obj [("$date", PyVal.str "2018-02-15T15:55:00.176Z")])])]) =
    Except.ok (PyVal.obj [("fld1", PyVal.obj [("$gt",
        PyVal.time ⟨2018, 2, 15, 15, 55, 0, 176000, some 0⟩)])]) := by rfl

example :
    convert_extended_json_to_native (PyVal.obj [("fld6", PyVal.num 437549)]) =
    Except.ok (PyVal.obj [("fld6", PyVal.num 437549)]) := by rfl

theorem lookupKey_isSome_eq_of_keys_eq {α β : Type} :
    ∀ (l1 : List (String × α)) (l2 : List (String × β)),
      l1.map Prod.fst = l2.map Prod.fst →
      ∀ k, (lookupKey l1 k).isSome = (lookupKey l2 k).isSome
  | [], [], _, _ => rfl
  | [], _ :: _, h, _ => by simp at h
  | _ :: _, [], h, _ => by simp at h
  | (k1, v1) :: r1, (k2, v2) :: r2, h, k => by
    simp only [List.map_cons, List.cons.injEq] at h
    obtain ⟨hk, hrest⟩ := h
    subst hk
    by_cases hkk : k1 = k
    · simp [lookupKey, hkk]
    · simp only [lookupKey, hkk, if_false]
      exact lookupKey_isSome_eq_of_keys_eq r1 r2 hrest k

theorem convertObjEntries_keys :
    ∀ (kvs kvs2 : List (String × PyVal)), convertObjEntries kvs = Except.ok kvs2 →
      kvs2.map Prod.fst = kvs.map Prod.fst := by
  intro kvs
  induction kvs with
  | nil =>
    intro kvs2 h
    simp only [convertObjEntries] at h
    cases h
    rfl
  | cons p rest ih =>
    intro kvs2 h
    obtain ⟨k, v⟩ := p
    simp only [convertObjEntries] at h
    cases hc : convert_extended_json_to_native v with
    | error e => rw [hc] at h; simp at h
    | ok v2 =>
      rw [hc] at h
      cases he : convertObjEntries rest with
      | error e => rw [he] at h; simp at h
      | ok rest2 =>
        rw [he] at h
        cases h
        simp only [List.map_cons]
        rw [ih rest2 he]

theorem convertObjEntries_length :
    ∀ (kvs kvs2 : List (String × PyVal)), convertObjEntries kvs = Except.ok kvs2 →
      kvs2.length = kvs.length := by
  intro kvs kvs2 h
  have hkeys := convertObjEntries_keys kvs kvs2 h
  have := congrArg List.length hkeys
  simpa using this

mutual

theorem convert_id_of_noTag (v : PyVal) (h : noSoleDateTag v = true) :
    convert_extended_json_to_native v = Except.ok v := by
  match v with
  | PyVal.obj kvs =>
    rw [noSoleDateTag] at h
    rw [Bool.and_eq_true] at h
    obtain ⟨h1, h2⟩ := h
    rw [convert_extended_json_to_native]
    rw [Bool.not_eq_true' ] at h1
    rw [h1]
    simp only [Bool.false_eq_true, if_false]
    rw [convertObjEntries_id_of_noTag kvs h2]
  | PyVal.arr xs =>
    rw [noSoleDateTag] at h
    rw [convert_extended_json_to_native]
    rw [convertArrElems_id_of_noTag xs h]
  | PyVal.str s => rfl
  | PyVal.num n => rfl
  | PyVal.bool b => rfl
  | PyVal.null => rfl
  | PyVal.time t => rfl

theorem convertObjEntries_id_of_noTag (kvs : List (String × PyVal))
    (h : noSoleDateTagEntries kvs = true) : convertObjEntries kvs = Except.ok kvs := by
  match kvs with
  | [] => rfl
  | (k, v) :: rest =>
    rw [noSoleDateTagEntries] at h
    rw [Bool.and_eq_true] at h
    obtain ⟨h1, h2⟩ := h
    rw [convertObjEntries]
    rw [convert_id_of_noTag v h1]
    rw [convertObjEntries_id_of_noTag rest h2]

theorem convertArrElems_id_of_noTag (xs : List PyVal)
    (h : noSoleDateTagElems xs = true) : convertArrElems xs = Except.ok xs := by
  match xs with
  | [] => rfl
  | v :: rest =>
    rw [noSoleDateTagElems] at h
    rw [Bool.and_eq_true] at h
    obtain ⟨h1, h2⟩ := h
    rw [convertArrElems]
    rw [convert_id_of_noTag v h1]
    rw [convertArrElems_id_of_noTag rest h2]

end

mutual

theorem convert_output_noTag (v w : PyVal)
    (h : convert_extended_json_to_native v = Except.ok w) : noSoleDateTag w = true := by
  match v with
  | PyVal.obj kvs =>
    rw [convert_extended_json_to_native] at h
    cases hguard : ((lookupKey kvs "$date").isSome && kvs.length == 1) with
    | true =>
      rw [hguard] at h
      simp only [if_true] at h
      cases hl : lookupKey kvs "$date" with
      | none => rw [hl] at h; simp at h
      | some dv =>
        rw [hl] at h
        match dv with
        | PyVal.str dtStr =>
          dsimp only at h
          cases hf : fromisoformat (normalizeZuluSuffix dtStr) with
          | none => rw [hf] at h; simp at h
          | some t =>
            rw [hf] at h
            cases h
            rfl
        | PyVal.num n => simp at h
        | PyVal.bool b => simp at h
        | PyVal.null => simp at h
        | PyVal.arr xs => simp at h
        | PyVal.obj kvs2 => simp at h
        | PyVal.time t => simp at h
    | false =>
      rw [hguard] at h
      simp only [Bool.false_eq_true, if_false] at h
      cases he : convertObjEntries kvs with
      | error e => rw [he] at h; simp at h
      | ok kvs2 =>
        rw [he] at h
        cases h
        rw [noSoleDateTag, Bool.and_eq_true]
        refine ⟨?_, convertObjEntries_output_noTag kvs kvs2 he⟩
        have hkeys := convertObjEntries_keys kvs kvs2 he
        have hsome := lookupKey_isSome_eq_of_keys_eq kvs2 kvs hkeys "$date"
        have hlen : kvs2.length = kvs.length := convertObjEntries_length kvs kvs2 he
        rw [Bool.not_eq_true']
        rw [hsome, hlen]
        exact hguard
  | PyVal.arr xs =>
    rw [convert_extended_json_to_native] at h
    cases he : convertArrElems xs with
    | error e => rw [he] at h; simp at h
    | ok xs2 =>
      rw [he] at h
      cases h
      rw [noSoleDateTag]
      exact convertArrElems_output_noTag xs xs2 he
  | PyVal.str s => cases h; rfl
  | PyVal.num n => cases h; rfl
  | PyVal.bool b => cases h; rfl
  | PyVal.null => cases h; rfl
  | PyVal.time t => cases h; rfl

theorem convertObjEntries_output_noTag (kvs kvs2 : List (String × PyVal))
    (h : convertObjEntries kvs = Except.ok kvs2) : noSoleDateTagEntries kvs2 = true := by
  match kvs with
  | [] =>
    cases h
    rfl
  | (k, v) :: rest =>
    rw [convertObjEntries] at h
    cases hc : convert_extended_json_to_native v with
    | error e => rw [hc] at h; simp at h
    | ok v2 =>
      rw [hc] at h
      cases he : convertObjEntries rest with
      | error e => rw [he] at h; simp at h
      | ok rest2 =>
        rw [he] at h
        cases h
        rw [noSoleDateTagEntries, Bool.and_eq_true]
        exact ⟨convert_output_noTag v v2 hc, convertObjEntries_output_noTag rest rest2 he⟩

theorem convertArrElems_output_noTag (xs xs2 : List PyVal)
    (h : convertArrElems xs = Except.ok xs2) : noSoleDateTagElems xs2 = true := by
  match xs with
  | [] =>
    cases h
    rfl
  | v :: rest =>
    rw [convertArrElems] at h
    cases hc : convert_extended_json_to_native v with
    | error e => rw [hc] at h; simp at h
    | ok v2 =>
      rw [hc] at h
      cases he : convertArrElems rest with
      | error e => rw [he] at h; simp at h
      | ok rest2 =>
        rw [he] at h
        cases h
        rw [noSoleDateTagElems, Bool.and_eq_true]
        exact ⟨convert_output_noTag v v2 hc, convertArrElems_output_noTag rest rest2 he⟩

end

/-- Composition: a successful translation is a fixed point of the translator,
since the output contains no sole-key date tag. -/
theorem convert_fixed_point (v w : PyVal)
    (h : convert_extended_json_to_native v = Except.ok w) :
    convert_extended_json_to_native w = Except.ok w :=
  convert_id_of_noTag w (convert_output_noTag v w h)

/-- JSON whitespace skipping. -/
def skipWs (cs : List Char) : List Char :=
  cs.dropWhile (fun c => c = ' ' ∨ c = '\t' ∨ c = '\n' ∨ c = '\r')

/-- Reads the body of a JSON string up to the closing quote.  Escape
sequences are outside the modelled subset (none of the repository's filter
strings use them), so a backslash is a parse failure. -/
def jsonStringChars : List Char → Option (List Char × List Char)
  | [] => Option.none
  | '"' :: rest => some ([], rest)
  | '\\' :: _ => Option.none
  | c :: rest =>
    match jsonStringChars rest with
    | some (body, rest2) => some (c :: body, rest2)
    | Option.none => Option.none

mutual

/-- One JSON value (fuel-indexed recursive-descent). -/
def jsonValue : Nat → List Char → Option (PyVal × List Char)
  | 0, _ => Option.none
  | Nat.succ f, cs =>
    match skipWs cs with
    | '{' :: rest =>
      (match skipWs rest with
       | '}' :: rest2 => some (PyVal.obj [], rest2)
       | _ => jsonMembers f rest [])
    | '[' :: rest =>
      (match skipWs rest with
       | ']' :: rest2 => some (PyVal.arr [], rest2)
       | _ => jsonElements f rest [])
    | '"' :: rest =>
      (match jsonStringChars rest with
       | some (body, rest2) => some (PyVal.str (String.mk body), rest2)
       | Option.none => Option.none)
    | 't' :: 'r' :: 'u' :: 'e' :: rest => some (PyVal.bool true, rest)
    | 'f' :: 'a' :: 'l' :: 's' :: 'e' :: rest => some (PyVal.bool false, rest)
    | 'n' :: 'u' :: 'l' :: 'l' :: rest => some (PyVal.null, rest)
    | '-' :: rest =>
      (match parseDigits (rest.takeWhile Char.isDigit) with
       | some n => some (PyVal.num (-(n : Int)), rest.dropWhile Char.isDigit)
       | Option.none => Option.none)
    | c :: rest =>
      if c.isDigit then
        match parseDigits ((c :: rest).takeWhile Char.isDigit) with
        | some n => some (PyVal.num (n : Int), (c :: rest).dropWhile Char.isDigit)
        | Option.none => Option.none
      else Option.none
    | [] => Option.none

/-- The member list of a JSON object, after the opening brace. -/
def jsonMembers : Nat → List Char → List (String × PyVal) → Option (PyVal × List Char)
  | 0, _, _ => Option.none
  | Nat.succ f, cs, acc =>
    match skipWs cs with
    | '"' :: rest =>
      (match jsonStringChars rest with
       | some (keyBody, rest2) =>
         (match skipWs rest2 with
          | ':' :: rest3 =>
            (match jsonValue f rest3 with
             | some (v, rest4) =>
               (match skipWs rest4 with
                | ',' :: rest5 => jsonMembers f rest5 (acc ++ [(String.mk keyBody, v)])
                | '}' :: rest5 => some (PyVal.obj (acc ++ [(String.mk keyBody, v)]), rest5)
                | _ => Option.none)
             | Option.none => Option.none)
          | _ => Option.none)
       | Option.none => Option.none)
    | _ => Option.none

/-- The element list of a JSON array, after the opening bracket. -/
def jsonElements : Nat → List Char → List PyVal → Option (PyVal × List Char)
  | 0, _, _ => Option.none
  | Nat.succ f, cs, acc =>
    match jsonValue f cs with
    | some (v, rest) =>
      (match skipWs rest with
       | ',' :: rest2 => jsonElements f rest2 (acc ++ [v])
       | ']' :: rest2 => some (PyVal.arr (acc ++ [v]), rest2)
       | _ => Option.none)
    | Option.none => Option.none

end

/-- Model of Python `json.loads` (standard library, not part of the
repository), restricted to the subset the script's filter strings exercise:
objects, arrays, double-quoted strings without escapes, integers, booleans
and null.  Unsupported constructs simply fail to parse, which the script
surfaces as a job failure either way. -/
def json_loads (s : String) : Option PyVal :=
  match jsonValue (s.length + 2) s.toList with
  | some (v, rest) => if skipWs rest = [] then some v else Option.none
  | Option.none => Option.none

/-- Lines 221-224 of `migrate.py`: the Pymongo count filter starts as the
unrestricted `{}` and, when the job has a query, is obtained by JSON-decoding
the raw query string and translating extended JSON to native values.  A
decode or translation failure raises inside the job's `try`. -/
def queryFilterForCount (query : Option String) : Except String PyVal :=
  match query with
  | Option.none => Except.ok (PyVal.obj [])
  | some q =>
    match json_loads q with
    | Option.none => Except.error ("json.loads failed on: " ++ q)
    | some v => convert_extended_json_to_native v

example :
    json_loads "\x7b\"fld6\": 437549\x7d" = some (PyVal.obj [("fld6", PyVal.num 437549)]) := by rfl

example :
    queryFilterForCount (some "\x7b\"fld1\": \x7b\"$gt\": \x7b\"$date\": \"2018-02-15T15:55:00.176Z\"\x7d\x7d\x7d") =
    Except.ok (PyVal.obj [("fld1", PyVal.obj [("$gt",
      PyVal.time ⟨2018, 2, 15, 15, 55, 0, 176000, some 0⟩)])]) := by rfl

/-- Values stored in a migration-log field: strings, counts, durations,
Python `None` (the `query` field of an unfiltered job), and wall-clock
readings (`datetime.utcnow()`, abstracted to a tick count). -/
inductive FieldVal where
  | str : String → FieldVal
  | nat : Nat → FieldVal
  | int : Int → FieldVal
  | vnull : FieldVal
  | time : Nat → FieldVal
deriving DecidableEq, Repr

/-- The `log_data` dictionary of `migrate_collection` (and, equally, a stored
audit document): field name to value, first occurrence wins on lookup. -/
abbrev LogData := List (String × FieldVal)

/-- A document of the `migration_logs` collection. -/
abbrev Record := List (String × FieldVal)

/-- The `migration_logs` collection itself, in insertion order. -/
abbrev AuditStore := List Record

/-- Sets one field of a document, replacing an existing occurrence in place
or appending a new field at the end — MongoDB `$set` for a single field. -/
def setField : Record → String → FieldVal → Record
  | [], k, v => [(k, v)]
  | (k2, v2) :: rest, k, v =>
    if k2 = k then (k, v) :: rest else (k2, v2) :: setField rest k v

/-- MongoDB `$set` with a whole document of fields, applied left to right. -/
def applySet : Record → LogData → Record
  | r, [] => r
  | r, (k, v) :: rest => applySet (setField r k v) rest

/-- The identity key `update_migration_log` filters on: the values of
`source_db` and `source_collection` in the `log_data` being written. -/
def ldKey (ld : LogData) : Option FieldVal × Option FieldVal :=
  (lookupKey ld "source_db", lookupKey ld "source_collection")

/-- Whether a stored document matches the `update_one` filter for `key`. -/
def recordHasKey (r : Record) (key : Option FieldVal × Option FieldVal) : Bool :=
  decide (lookupKey r "source_db" = key.1) && decide (lookupKey r "source_collection" = key.2)

/-- MongoDB `update_one(filter, set, upsert=True)`: `$set` on the first
matching document, or insertion of a fresh document built from the `$set`
fields when none matches. -/
def upsertOne : AuditStore → LogData → AuditStore
  | [], ld => [applySet [] ld]
  | r :: rest, ld =>
    if recordHasKey r (ldKey ld) then applySet r ld :: rest else r :: upsertOne rest ld

/-- `update_migration_log` (`migrate.py:148-157`): performs the keyed upsert;
any exception from the write is caught and printed, so a failed write
(`writeOk = false`) leaves the store unchanged and the caller continues. -/
def update_migration_log (store : AuditStore) (log_data : LogData) (writeOk : Bool) : AuditStore :=
  if writeOk then upsertOne store log_data else store

/-- Number of stored documents matching an identity key. -/
def countByKey (store : AuditStore) (key : Option FieldVal × Option FieldVal) : Nat :=
  (store.filter (fun r => recordHasKey r key)).length

/-- First stored document matching an identity key. -/
def findByKey (store : AuditStore) (key : Option FieldVal × Option FieldVal) : Option Record :=
  store.find? (fun r => recordHasKey r key)

/-- The `status` field of the first stored document for an identity key. -/
def statusByKey (store : AuditStore) (key : Option FieldVal × Option FieldVal) : Option FieldVal :=
  match findByKey store key with
  | some r => lookupKey r "status"
  | Option.none => Option.none

/-- One entry of `COLLECTIONS_TO_MIGRATE`: `name` is required, the rest
optional (`migrate.py:29-35`). -/
structure Config where
  source_db : Option String
  name : String
  target_db : Option String
  target_name : Option String
  query : Option String
deriving DecidableEq, Repr

/-- Global default source database name (`migrate.py:23`). -/
def SOURCE_DB : String := "test"

/-- Global default target database name (`migrate.py:24`). -/
def TARGET_DB : String := "test"

/-- Name of the audit collection (`migrate.py:27`). -/
def LOG_COLLECTION_NAME : String := "migration_logs"

/-- `migrate.py:162`: `config.get('source_db', SOURCE_DB)`. -/
def resolvedSourceDb (config : Config) : String :=
  config.source_db.getD SOURCE_DB

/-- `migrate.py:163`: `config.get('target_db', TARGET_DB)`. -/
def resolvedTargetDb (config : Config) : String :=
  config.target_db.getD TARGET_DB

/-- `migrate.py:165`: `config.get('target_name', source_collection_name)`. -/
def resolvedTargetCollection (config : Config) : String :=
  config.target_name.getD config.name

/-- Oracle for every external effect one `migrate_collection` call can
observe: whether each store connection attempt succeeds, whether each audit
write succeeds, the exit codes and captured stderr of the two pipeline
processes, whether each count query succeeds and its result, and the
wall-clock readings. -/
structure Env where
  logConnOk : Bool
  initialLogWriteOk : Bool
  restoreExit : Int
  restoreStderr : String
  dumpExit : Int
  dumpStderr : String
  sourceConnOk : Bool
  targetConnOk : Bool
  sourceCountOk : Bool
  sourceCountErrText : String
  targetCountOk : Bool
  targetCountErrText : String
  sourceCount : Nat
  targetCount : Nat
  finalLogWriteOk : Bool
  startTime : Nat
  endTime : Nat
deriving DecidableEq, Repr

/-- The dictionary `migrate_collection` returns to the scheduler. -/
structure JobResult where
  status : String
  collection : String
  verification : Option String
  error : Option String
deriving DecidableEq, Repr

/-- Observable side effects of one job: which processes were spawned, which
connections were opened and closed, which count filters were passed to
`count_documents`, and which stderr streams were collected. -/
structure Trace where
  logConnOpened : Bool := false
  logConnClosed : Bool := false
  transferAttempted : Bool := false
  restoreStderrCaptured : Option String := Option.none
  dumpStderrCaptured : Option String := Option.none
  sourceConnOpened : Bool := false
  targetConnOpened : Bool := false
  sourceConnClosed : Bool := false
  targetConnClosed : Bool := false
  sourceCountFilter : Option PyVal := Option.none
  targetCountFilter : Option PyVal := Option.none

/-- Everything one `migrate_collection` call produces. -/
structure MigOut where
  result : JobResult
  trace : Trace
  store : AuditStore

/-- The `log_data` dictionary built at `migrate.py:169-173`. -/
def initialLogData (sdb scoll tdb tcoll : String) (query : Option String)
    (startTime : Nat) : LogData :=
  [("source_db", FieldVal.str sdb),
   ("source_collection", FieldVal.str scoll),
   ("target_db", FieldVal.str tdb),
   ("target_collection", FieldVal.str tcoll),
   ("query", match query with | some q => FieldVal.str q | Option.none => FieldVal.vnull),
   ("start_time", FieldVal.time startTime),
   ("status", FieldVal.str "running")]

/-- The shared `except` handler of the transfer `try` block
(`migrate.py:253-263`) followed by the `finally` (`264-266`): update
`log_data` to `failed`, attempt the final audit write, close the logging
connection, and return the failed job result. -/
def failOut (log_data : LogData) (msg collId : String) (env : Env) (trace : Trace)
    (store : AuditStore) : MigOut :=
  let ld2 := applySet log_data
    [("status", FieldVal.str "failed"),
     ("end_time", FieldVal.time env.endTime),
     ("duration_seconds", FieldVal.int ((env.endTime : Int) - (env.startTime : Int))),
     ("error_message", FieldVal.str msg)]
  { result := { status := "failed", collection := collId,
                verification := Option.none, error := some msg },
    trace := { trace with logConnClosed := true },
    store := update_migration_log store ld2 env.finalLogWriteOk }

/-- `migrate_collection` (`migrate.py:160-266`), stated over the effect
oracle `env` and an explicit audit store.  Control flow follows the source
line by line: name resolution with defaults (162-165), the initial audit
connection and `running` write with its abort path (175-184), the
dump/restore pipeline (188-216), the verification connections, filter
translation and counts (218-238), the final audit write (240-246 resp.
256-261), closing of the verification connections on the success path only
(248-249), and the `finally` closing the logging connection (264-266). -/
def migrate_collection (config : Config) (env : Env) (store : AuditStore) : MigOut :=
  let source_db_name := resolvedSourceDb config
  let target_db_name := resolvedTargetDb config
  let source_collection_name := config.name
  let target_collection_name := resolvedTargetCollection config
  let query := config.query
  let collId := source_db_name ++ "." ++ source_collection_name
  let log_data := initialLogData source_db_name source_collection_name
    target_db_name target_collection_name query env.startTime
  if env.logConnOk = false then
    { result := { status := "failed", collection := collId,
                  verification := Option.none,
                  error := some "Failed to connect to target DB for logging." },
      trace := {}, store := store }
  else
    let store1 := update_migration_log store log_data env.initialLogWriteOk
    let t1 : Trace :=
      { logConnOpened := true, transferAttempted := true,
        restoreStderrCaptured := some env.restoreStderr,
        dumpStderrCaptured := some env.dumpStderr }
    if env.restoreExit ≠ 0 then
      failOut log_data ("Restore failed. Stderr: " ++ env.restoreStderr) collId env t1 store1
    else if env.dumpExit ≠ 0 then
      failOut log_data ("Dump failed. Stderr: " ++ env.dumpStderr) collId env t1 store1
    else
      let t2 : Trace :=
        { t1 with sourceConnOpened := env.sourceConnOk, targetConnOpened := env.targetConnOk }
      match queryFilterForCount query with
      | Except.error msg => failOut log_data msg collId env t2 store1
      | Except.ok query_filter_for_count =>
        if env.sourceConnOk = false then
          failOut log_data "TypeError: NoneType object is not subscriptable" collId env t2 store1
        else
          let t3 : Trace := { t2 with sourceCountFilter := some query_filter_for_count }
          if env.sourceCountOk = false then
            failOut log_data env.sourceCountErrText collId env t3 store1
          else if env.targetConnOk = false then
            failOut log_data "TypeError: NoneType object is not subscriptable" collId env t3 store1
          else
            let t4 : Trace := { t3 with targetCountFilter := some (PyVal.obj []) }
            if env.targetCountOk = false then
              failOut log_data env.targetCountErrText collId env t4 store1
            else
              let verification_status :=
                if env.sourceCount ≠ env.targetCount then "count_mismatch" else "success"
              let ld2 := applySet log_data
                [("status", FieldVal.str "completed"),
                 ("end_time", FieldVal.time env.endTime),
                 ("duration_seconds", FieldVal.int ((env.endTime : Int) - (env.startTime : Int))),
                 ("source_count", FieldVal.nat env.sourceCount),
                 ("target_count", FieldVal.nat env.targetCount),
                 ("verification", FieldVal.str verification_status)]
              let store2 := update_migration_log store1 ld2 env.finalLogWriteOk
              let t5 : Trace :=
                { t4 with sourceConnClosed := true, targetConnClosed := true,
                          logConnClosed := true }
              { result := { status := "completed", collection := collId,
                            verification := some verification_status,
                            error := Option.none },
                trace := t5, store := store2 }

/-- Claim C1: for every filter value that is an object with the date tag
`$date` as its sole key mapping to a valid ISO-8601 string, the Filter
Translator returns the native timestamp obtained by parsing that string
after replacing a trailing `Z` suffix with the explicit zero offset
`+00:00`. -/
theorem claim_C1_sole_date_translates (s : String) (t : PyDatetime)
    (h : fromisoformat (normalizeZuluSuffix s) = some t) :
    convert_extended_json_to_native (PyVal.obj [("$date", PyVal.str s)]) =
      Except.ok (PyVal.time t) := by
  simp [convert_extended_json_to_native, lookupKey, h]

/-- Claim C1 witness: the spec's own example,
`2018-02-15T15:55:00.176Z` → timestamp `2018-02-15T15:55:00.176+00:00`. -/
theorem claim_C1_sole_date_translates_witness :
    fromisoformat (normalizeZuluSuffix "2018-02-15T15:55:00.176Z") =
      some ⟨2018, 2, 15, 15, 55, 0, 176000, some 0⟩ ∧
    convert_extended_json_to_native
        (PyVal.obj [("$date", PyVal.str "2018-02-15T15:55:00.176Z")]) =
      Except.ok (PyVal.time ⟨2018, 2, 15, 15, 55, 0, 176000, some 0⟩) :=
  ⟨by decide, claim_C1_sole_date_translates _ _ (by decide)⟩

/-- Claim C9: for every filter expression containing no sole-key `$date`
object anywhere inside it, translation is the deep identity: the translated
value is equal to the input (same keys, same array elements in order, same
scalars). -/
theorem claim_C9_no_tag_structure_preserving (v : PyVal) (h : noSoleDateTag v = true) :
    convert_extended_json_to_native v = Except.ok v :=
  convert_id_of_noTag v h

/-- Claim C9 witness: the repository's `dk2` filter, which contains no date
tag, translates to itself. -/
theorem claim_C9_no_tag_structure_preserving_witness :
    noSoleDateTag (PyVal.obj [("fld4", PyVal.str "magna aliquyam erat, sed diam")]) = true ∧
    convert_extended_json_to_native
        (PyVal.obj [("fld4", PyVal.str "magna aliquyam erat, sed diam")]) =
      Except.ok (PyVal.obj [("fld4", PyVal.str "magna aliquyam erat, sed diam")]) :=
  ⟨by rfl, claim_C9_no_tag_structure_preserving _ (by rfl)⟩

/-- Claim C10: the Filter Translator is idempotent — whenever it succeeds,
its output is a fixed point, because every value it produces (including the
substituted native timestamps) passes through unchanged on re-application. -/
theorem claim_C10_translator_idempotent (v w : PyVal)
    (h : convert_extended_json_to_native v = Except.ok w) :
    convert_extended_json_to_native w = Except.ok w :=
  convert_fixed_point v w h

/-- Claim C10 witness: translating the repository's `dk1` date filter and
re-translating the result. -/
theorem claim_C10_translator_idempotent_witness :
    convert_extended_json_to_native
        (PyVal.obj [("fld1", PyVal.obj [("$gt",
          PyVal.obj [("$date", PyVal.str "2018-02-15T15:55:00.176Z")])])]) =
      Except.ok (PyVal.obj [("fld1", PyVal.obj [("$gt",
        PyVal.time ⟨2018, 2, 15, 15, 55, 0, 176000, some 0⟩)])]) ∧
    convert_extended_json_to_native
        (PyVal.obj [("fld1", PyVal.obj [("$gt",
          PyVal.time ⟨2018, 2, 15, 15, 55, 0, 176000, some 0⟩)])]) =
      Except.ok (PyVal.obj [("fld1", PyVal.obj [("$gt",
        PyVal.time ⟨2018, 2, 15, 15, 55, 0, 176000, some 0⟩)])]) :=
  ⟨by rfl, claim_C10_translator_idempotent
    (PyVal.obj [("fld1", PyVal.obj [("$gt",
      PyVal.obj [("$date", PyVal.str "2018-02-15T15:55:00.176Z")])])]) _ (by rfl)⟩

/-- A job specification with every optional field defaulted except the
target database (mirrors the `dk4` entry of `COLLECTIONS_TO_MIGRATE`). -/
def cfgPlain : Config :=
  { source_db := Option.none, name := "dk4", target_db := some "target_test",
    target_name := Option.none, query := Option.none }

/-- An effect oracle in which every external step succeeds and the two
counts agree. -/
def envAllOk : Env :=
  { logConnOk := true, initialLogWriteOk := true,
    restoreExit := 0, restoreStderr := "",
    dumpExit := 0, dumpStderr := "",
    sourceConnOk := true, targetConnOk := true,
    sourceCountOk := true, sourceCountErrText := "",
    targetCountOk := true, targetCountErrText := "",
    sourceCount := 3, targetCount := 3,
    finalLogWriteOk := true, startTime := 10, endTime := 15 }

/-- Claim C2 counterexample: a job whose initial audit `running` write fails
(the `update_one` call raises, `initialLogWriteOk = false`) while the audit
connection itself succeeds does NOT abort — the transfer is attempted and
the job completes, because `update_migration_log` swallows every write
error.  This refutes the claim that a failing initial `running` write aborts
the job with no transfer attempted. -/
theorem claim_C2_counterexample :
    ({ envAllOk with initialLogWriteOk := false } : Env).initialLogWriteOk = false ∧
    (migrate_collection cfgPlain { envAllOk with initialLogWriteOk := false } []).result.status
      = "completed" ∧
    (migrate_collection cfgPlain { envAllOk with initialLogWriteOk := false } []).trace.transferAttempted
      = true := by
  refine ⟨rfl, ?_, ?_⟩ <;> rfl

/-- Claim C2 (amended): only a failure to OPEN the audit connection for the
initial `running` write aborts the job immediately as `failed` with no
transfer attempted (and the audit store untouched); a failure of the write
itself after a successful connection is swallowed and the job proceeds. -/
theorem claim_C2_amended_conn_failure_aborts (config : Config) (env : Env)
    (store : AuditStore) (h : env.logConnOk = false) :
    (migrate_collection config env store).result.status = "failed" ∧
    (migrate_collection config env store).trace.transferAttempted = false ∧
    (migrate_collection config env store).store = store := by
  simp [migrate_collection, h]

/-- Claim C2 (amended) witness: a concrete job whose audit connection fails. -/
theorem claim_C2_amended_conn_failure_aborts_witness :
    ({ envAllOk with logConnOk := false } : Env).logConnOk = false ∧
    ((migrate_collection cfgPlain { envAllOk with logConnOk := false } []).result.status = "failed" ∧
     (migrate_collection cfgPlain { envAllOk with logConnOk := false } []).trace.transferAttempted = false ∧
     (migrate_collection cfgPlain { envAllOk with logConnOk := false } []).store = []) :=
  ⟨rfl, claim_C2_amended_conn_failure_aborts cfgPlain { envAllOk with logConnOk := false } [] rfl⟩

/-- Claim C3: if either pipeline stage exits non-zero, the job fails with an
error message naming the failing stage and carrying that stage's captured
stderr, and both stages' stderr streams were collected (preserved) before
classification; in particular a loader (`mongorestore`) failure after an
extractor success is reported with the loader's stage text. -/
theorem claim_C3_transfer_failure (config : Config) (env : Env) (store : AuditStore)
    (hc : env.logConnOk = true)
    (h : env.restoreExit ≠ 0 ∨ env.dumpExit ≠ 0) :
    (migrate_collection config env store).result.status = "failed" ∧
    (migrate_collection config env store).trace.restoreStderrCaptured = some env.restoreStderr ∧
    (migrate_collection config env store).trace.dumpStderrCaptured = some env.dumpStderr ∧
    (env.restoreExit ≠ 0 →
      (migrate_collection config env store).result.error =
        some ("Restore failed. Stderr: " ++ env.restoreStderr)) ∧
    (env.restoreExit = 0 →
      (migrate_collection config env store).result.error =
        some ("Dump failed. Stderr: " ++ env.dumpStderr)) := by
  by_cases hr : env.restoreExit = 0
  · rcases h with h | h
    · exact absurd hr h
    · simp [migrate_collection, failOut, hc, hr, h]
  · simp [migrate_collection, failOut, hc, hr]

/-- Claim C3 witness: extractor succeeds, loader exits 1 — the job fails
with the loader's stage named and its stderr embedded. -/
theorem claim_C3_transfer_failure_witness :
    (({ envAllOk with restoreExit := 1, restoreStderr := "restore boom" } : Env).logConnOk = true ∧
     (({ envAllOk with restoreExit := 1, restoreStderr := "restore boom" } : Env).restoreExit ≠ 0 ∨
      ({ envAllOk with restoreExit := 1, restoreStderr := "restore boom" } : Env).dumpExit ≠ 0)) ∧
    ((migrate_collection cfgPlain { envAllOk with restoreExit := 1, restoreStderr := "restore boom" } []).result.status = "failed" ∧
     (migrate_collection cfgPlain { envAllOk with restoreExit := 1, restoreStderr := "restore boom" } []).result.error =
       some "Restore failed. Stderr: restore boom") := by
  have h := claim_C3_transfer_failure cfgPlain
    { envAllOk with restoreExit := 1, restoreStderr := "restore boom" } [] rfl
    (Or.inl (by decide))
  exact ⟨⟨rfl, Or.inl (by decide)⟩, h.1, h.2.2.2.1 (by decide)⟩

/-- Claim C4: when the transfer and both verification counts succeed, the
job completes; the verification outcome is `success` exactly when the
translated-filter source count equals the target count and `count_mismatch`
otherwise (never an escalation to `failed`); the source side is counted with
the translated filter and the target side always with the empty filter. -/
theorem claim_C4_verification_outcome (config : Config) (env : Env) (store : AuditStore)
    (qf : PyVal)
    (hc : env.logConnOk = true) (hr : env.restoreExit = 0) (hd : env.dumpExit = 0)
    (hq : queryFilterForCount config.query = Except.ok qf)
    (hs : env.sourceConnOk = true) (ht : env.targetConnOk = true)
    (hsc : env.sourceCountOk = true) (htc : env.targetCountOk = true) :
    (migrate_collection config env store).result.status = "completed" ∧
    (migrate_collection config env store).result.verification =
      some (if env.sourceCount ≠ env.targetCount then "count_mismatch" else "success") ∧
    (migrate_collection config env store).result.error = Option.none ∧
    (migrate_collection config env store).trace.sourceCountFilter = some qf ∧
    (migrate_collection config env store).trace.targetCountFilter = some (PyVal.obj []) := by
  simp [migrate_collection, hc, hr, hd, hq, hs, ht, hsc, htc]

/-- Claim C4 witness: a filtered job (the repository's `dk3` query) whose
counts agree yields `completed`/`success` with the translated source filter
and the empty target filter. -/
theorem claim_C4_verification_outcome_witness :
    queryFilterForCount (some "\x7b\"fld6\": 437549\x7d") =
      Except.ok (PyVal.obj [("fld6", PyVal.num 437549)]) ∧
    ((migrate_collection { cfgPlain with query := some "\x7b\"fld6\": 437549\x7d" } envAllOk []).result.status = "completed" ∧
     (migrate_collection { cfgPlain with query := some "\x7b\"fld6\": 437549\x7d" } envAllOk []).result.verification =
       some (if envAllOk.sourceCount ≠ envAllOk.targetCount then "count_mismatch" else "success") ∧
     (migrate_collection { cfgPlain with query := some "\x7b\"fld6\": 437549\x7d" } envAllOk []).result.error = Option.none ∧
     (migrate_collection { cfgPlain with query := some "\x7b\"fld6\": 437549\x7d" } envAllOk []).trace.sourceCountFilter =
       some (PyVal.obj [("fld6", PyVal.num 437549)]) ∧
     (migrate_collection { cfgPlain with query := some "\x7b\"fld6\": 437549\x7d" } envAllOk []).trace.targetCountFilter =
       some (PyVal.obj [])) := by
  refine ⟨by rfl, ?_⟩
  have h := claim_C4_verification_outcome { cfgPlain with query := some "\x7b\"fld6\": 437549\x7d" }
    envAllOk [] (PyVal.obj [("fld6", PyVal.num 437549)]) rfl rfl rfl (by rfl) rfl rfl rfl rfl
  exact ⟨h.1, h.2.1, h.2.2.1, h.2.2.2.1, h.2.2.2.2⟩

/-- A job specification that overrides the source database but leaves the
target database unspecified. -/
def cfgSourceDbOnly : Config :=
  { source_db := some "test1", name := "dk1", target_db := Option.none,
    target_name := Option.none, query := Option.none }

/-- Claim C7 counterexample: with `source_db = "test1"` and no `target_db`,
the target database resolves to the global `TARGET_DB` (`"test"`), not to
the job's source database name — refuting "an omitted target database name
defaults to the source database name". -/
theorem claim_C7_counterexample :
    cfgSourceDbOnly.target_db = Option.none ∧
    resolvedSourceDb cfgSourceDbOnly = "test1" ∧
    resolvedTargetDb cfgSourceDbOnly = "test" ∧
    resolvedTargetDb cfgSourceDbOnly ≠ resolvedSourceDb cfgSourceDbOnly := by
  refine ⟨rfl, rfl, rfl, ?_⟩
  decide

/-- Claim C7 (amended): an omitted target collection name defaults to the
source collection name, and an omitted target database name defaults to the
global default target database `TARGET_DB` (which coincides with the global
default source database, but not with a per-job source database override). -/
theorem claim_C7_amended_defaults (config : Config) :
    (config.target_name = Option.none → resolvedTargetCollection config = config.name) ∧
    (config.target_db = Option.none → resolvedTargetDb config = TARGET_DB) := by
  constructor <;> intro h <;> simp [resolvedTargetCollection, resolvedTargetDb, h]

/-- Claim C7 (amended) witness. -/
theorem claim_C7_amended_defaults_witness :
    resolvedTargetCollection cfgSourceDbOnly = "dk1" ∧
    resolvedTargetDb cfgSourceDbOnly = "test" :=
  ⟨(claim_C7_amended_defaults cfgSourceDbOnly).1 rfl,
   (claim_C7_amended_defaults cfgSourceDbOnly).2 rfl⟩

/-- Claim C8: the job's returned terminal result and its observable trace do
not depend on whether the final-status audit write succeeds — a failing
final write is swallowed by `update_migration_log` and never changes or
aborts the already-determined outcome. -/
theorem claim_C8_final_write_swallowed (config : Config) (env : Env)
    (store : AuditStore) (b : Bool) :
    (migrate_collection config { env with finalLogWriteOk := b } store).result =
      (migrate_collection config env store).result ∧
    (migrate_collection config { env with finalLogWriteOk := b } store).trace =
      (migrate_collection config env store).trace := by
  by_cases h1 : env.logConnOk = false <;>
    by_cases h2 : env.restoreExit = 0 <;>
      by_cases h3 : env.dumpExit = 0 <;>
        cases hq : queryFilterForCount config.query <;>
          by_cases h4 : env.sourceConnOk = false <;>
            by_cases h5 : env.sourceCountOk = false <;>
              by_cases h6 : env.targetConnOk = false <;>
                by_cases h7 : env.targetCountOk = false <;>
                  simp [migrate_collection, failOut, h1, h2, h3, hq, h4, h5, h6, h7]

/-- Claim C6 counterexample: a job that fails after the verification
connections were opened (here the source count query raises) returns with
both verification connections still open — `migrate.py` closes
`source_client`/`target_client` only on the success path (lines 248-249),
not in the `except` handler — refuting "every connection a job opens is
closed on every exit path". -/
theorem claim_C6_counterexample :
    (migrate_collection cfgPlain { envAllOk with sourceCountOk := false } []).result.status = "failed" ∧
    (migrate_collection cfgPlain { envAllOk with sourceCountOk := false } []).trace.sourceConnOpened = true ∧
    (migrate_collection cfgPlain { envAllOk with sourceCountOk := false } []).trace.sourceConnClosed = false ∧
    (migrate_collection cfgPlain { envAllOk with sourceCountOk := false } []).trace.targetConnOpened = true ∧
    (migrate_collection cfgPlain { envAllOk with sourceCountOk := false } []).trace.targetConnClosed = false := by
  refine ⟨?_, ?_, ?_, ?_, ?_⟩ <;> rfl

/-- Claim C6 (amended): the audit/logging connection is closed on every exit
path on which it was opened (the `finally` guarantee), and the source and
target verification connections are closed on the `completed` path; on error
exit paths after they are opened they are not released. -/
theorem claim_C6_amended_connection_release (config : Config) (env : Env)
    (store : AuditStore) :
    ((migrate_collection config env store).trace.logConnOpened = true →
      (migrate_collection config env store).trace.logConnClosed = true) ∧
    ((migrate_collection config env store).result.status = "completed" →
      (migrate_collection config env store).trace.sourceConnClosed = true ∧
      (migrate_collection config env store).trace.targetConnClosed = true) := by
  by_cases h1 : env.logConnOk = false <;>
    by_cases h2 : env.restoreExit = 0 <;>
      by_cases h3 : env.dumpExit = 0 <;>
        cases hq : queryFilterForCount config.query <;>
          by_cases h4 : env.sourceConnOk = false <;>
            by_cases h5 : env.sourceCountOk = false <;>
              by_cases h6 : env.targetConnOk = false <;>
                by_cases h7 : env.targetCountOk = false <;>
                  simp [migrate_collection, failOut, h1, h2, h3, hq, h4, h5, h6, h7]

/-- Claim C6 (amended) witness: on a fully successful job the logging and
both verification connections are all closed. -/
theorem claim_C6_amended_connection_release_witness :
    (migrate_collection cfgPlain envAllOk []).trace.logConnClosed = true ∧
    (migrate_collection cfgPlain envAllOk []).trace.sourceConnClosed = true ∧
    (migrate_collection cfgPlain envAllOk []).trace.targetConnClosed = true := by
  have h := claim_C6_amended_connection_release cfgPlain envAllOk []
  exact ⟨h.1 (by rfl), (h.2 (by rfl)).1, (h.2 (by rfl)).2⟩

theorem lookupKey_setField_same (r : Record) (k : String) (v : FieldVal) :
    lookupKey (setField r k v) k = some v := by
  induction r with
  | nil => simp [setField, lookupKey]
  | cons p rest ih =>
    obtain ⟨k2, v2⟩ := p
    by_cases hk : k2 = k
    · simp [setField, hk, lookupKey]
    · simp only [setField, hk, if_false, lookupKey]
      exact ih

theorem lookupKey_setField_ne (r : Record) (k k' : String) (v : FieldVal)
    (h : k' ≠ k) :
    lookupKey (setField r k v) k' = lookupKey r k' := by
  induction r with
  | nil =>
    simp only [setField, lookupKey]
    rw [if_neg (fun he => h he.symm)]
  | cons p rest ih =>
    obtain ⟨k2, v2⟩ := p
    by_cases hk : k2 = k
    · subst hk
      simp only [setField, if_pos rfl, lookupKey]
      rw [if_neg (fun he => h he.symm), if_neg (fun he => h he.symm)]
    · simp only [setField, hk, if_false, lookupKey]
      by_cases hk2 : k2 = k'
      · rw [if_pos hk2, if_pos hk2]
      · rw [if_neg hk2, if_neg hk2]
        exact ih

theorem lookupKey_applySet_not_mem :
    ∀ (ups : LogData) (r : Record) (k : String), (∀ p ∈ ups, p.1 ≠ k) →
      lookupKey (applySet r ups) k = lookupKey r k
  | [], r, k, _ => rfl
  | (k1, v1) :: rest, r, k, h => by
    rw [applySet]
    rw [lookupKey_applySet_not_mem rest (setField r k1 v1) k
      (fun q hq => h q (List.mem_cons_of_mem _ hq))]
    exact lookupKey_setField_ne r k1 k v1
      (fun he => (h (k1, v1) (List.mem_cons_self _ _)) (he.symm ▸ rfl))

theorem lookupKey_applySet_mem :
    ∀ (ups : LogData) (r : Record) (k : String) (v : FieldVal),
      lookupKey ups k = some v → (ups.map Prod.fst).Nodup →
      lookupKey (applySet r ups) k = some v
  | [], r, k, v, h, _ => by simp [lookupKey] at h
  | (k1, v1) :: rest, r, k, v, h, hnd => by
    rw [applySet]
    rw [List.map_cons, List.nodup_cons] at hnd
    obtain ⟨hout, hnd2⟩ := hnd
    by_cases hk : k1 = k
    · subst hk
      rw [lookupKey, if_pos rfl] at h
      have hnotin : ∀ p ∈ rest, p.1 ≠ k1 := by
        intro p hp he
        apply hout
        rw [← he]
        exact List.mem_map.mpr ⟨p, hp, rfl⟩
      rw [lookupKey_applySet_not_mem rest (setField r k1 v1) k1 hnotin]
      rw [lookupKey_setField_same r k1 v1]
      exact h
    · rw [lookupKey, if_neg hk] at h
      exact lookupKey_applySet_mem rest (setField r k1 v1) k v h hnd2

theorem recordHasKey_applySet (r : Record) (ld : LogData) (a b : FieldVal)
    (h1 : lookupKey ld "source_db" = some a)
    (h2 : lookupKey ld "source_collection" = some b)
    (hnd : (ld.map Prod.fst).Nodup) :
    recordHasKey (applySet r ld) (some a, some b) = true := by
  rw [recordHasKey]
  rw [lookupKey_applySet_mem ld r _ _ h1 hnd, lookupKey_applySet_mem ld r _ _ h2 hnd]
  simp

theorem countByKey_cons (x : Record) (s : AuditStore)
    (key : Option FieldVal × Option FieldVal) :
    countByKey (x :: s) key =
      (if recordHasKey x key = true then 1 else 0) + countByKey s key := by
  by_cases h : recordHasKey x key = true
  · simp [countByKey, List.filter_cons, h, Nat.add_comm]
  · simp [countByKey, List.filter_cons, h]

theorem countByKey_upsertOne :
    ∀ (store : AuditStore) (ld : LogData) (key : Option FieldVal × Option FieldVal),
      ldKey ld = key → (∀ r, recordHasKey (applySet r ld) key = true) →
      countByKey (upsertOne store ld) key =
        if countByKey store key = 0 then 1 else countByKey store key
  | [], ld, key, hk, hmatch => by
    simp [upsertOne, countByKey, List.filter, hmatch []]
  | r :: rest, ld, key, hk, hmatch => by
    rw [upsertOne]
    by_cases hr : recordHasKey r (ldKey ld) = true
    · rw [if_pos hr]
      rw [hk] at hr
      rw [countByKey_cons, countByKey_cons, if_pos (hmatch r), if_pos hr]
      have : ¬(1 + countByKey rest key = 0) := by omega
      rw [if_neg this]
    · rw [if_neg hr]
      rw [hk] at hr
      rw [countByKey_cons, countByKey_cons, if_neg hr]
      rw [countByKey_upsertOne rest ld key hk hmatch]
      simp

theorem findByKey_upsertOne :
    ∀ (store : AuditStore) (ld : LogData) (key : Option FieldVal × Option FieldVal),
      ldKey ld = key → (∀ r, recordHasKey (applySet r ld) key = true) →
      ∃ r0, findByKey (upsertOne store ld) key = some (applySet r0 ld)
  | [], ld, key, hk, hmatch =>
    ⟨[], by simp [upsertOne, findByKey, List.find?, hmatch []]⟩
  | r :: rest, ld, key, hk, hmatch => by
    rw [upsertOne]
    by_cases hr : recordHasKey r (ldKey ld) = true
    · refine ⟨r, ?_⟩
      rw [if_pos hr, findByKey, List.find?]
      rw [hmatch r]
    · obtain ⟨r0, h0⟩ := findByKey_upsertOne rest ld key hk hmatch
      refine ⟨r0, ?_⟩
      rw [if_neg hr, findByKey, List.find?]
      rw [hk] at hr
      rw [Bool.of_not_eq_true hr]
      exact h0

theorem statusByKey_upsertOne (store : AuditStore) (ld : LogData) (a b stv : FieldVal)
    (h1 : lookupKey ld "source_db" = some a)
    (h2 : lookupKey ld "source_collection" = some b)
    (hst : lookupKey ld "status" = some stv)
    (hnd : (ld.map Prod.fst).Nodup) :
    statusByKey (upsertOne store ld) (some a, some b) = some stv := by
  have hk : ldKey ld = (some a, some b) := by rw [ldKey, h1, h2]
  have hmatch : ∀ r, recordHasKey (applySet r ld) (some a, some b) = true :=
    fun r => recordHasKey_applySet r ld a b h1 h2 hnd
  obtain ⟨r0, h0⟩ := findByKey_upsertOne store ld (some a, some b) hk hmatch
  rw [statusByKey, h0]
  exact lookupKey_applySet_mem ld r0 "status" stv hst hnd


theorem nodup_failed_fields (sdb scoll tdb tcoll : String) (q : Option String)
    (st e : Nat) (d : Int) (msg : String) :
    ((applySet (initialLogData sdb scoll tdb tcoll q st)
      [("status", FieldVal.str "failed"), ("end_time", FieldVal.time e),
       ("duration_seconds", FieldVal.int d), ("error_message", FieldVal.str msg)]).map Prod.fst).Nodup := by
  rw [show (applySet (initialLogData sdb scoll tdb tcoll q st)
      [("status", FieldVal.str "failed"), ("end_time", FieldVal.time e),
       ("duration_seconds", FieldVal.int d), ("error_message", FieldVal.str msg)]).map Prod.fst =
      ["source_db", "source_collection", "target_db", "target_collection", "query",
       "start_time", "status", "end_time", "duration_seconds", "error_message"] from rfl]
  decide

theorem nodup_completed_fields (sdb scoll tdb tcoll : String) (q : Option String)
    (st e : Nat) (d : Int) (sc tc : Nat) (vs : String) :
    ((applySet (initialLogData sdb scoll tdb tcoll q st)
      [("status", FieldVal.str "completed"), ("end_time", FieldVal.time e),
       ("duration_seconds", FieldVal.int d), ("source_count", FieldVal.nat sc),
       ("target_count", FieldVal.nat tc), ("verification", FieldVal.str vs)]).map Prod.fst).Nodup := by
  rw [show (applySet (initialLogData sdb scoll tdb tcoll q st)
      [("status", FieldVal.str "completed"), ("end_time", FieldVal.time e),
       ("duration_seconds", FieldVal.int d), ("source_count", FieldVal.nat sc),
       ("target_count", FieldVal.nat tc), ("verification", FieldVal.str vs)]).map Prod.fst =
      ["source_db", "source_collection", "target_db", "target_collection", "query",
       "start_time", "status", "end_time", "duration_seconds", "source_count",
       "target_count", "verification"] from rfl]
  decide

theorem migrate_store_shape (config : Config) (env : Env) (store : AuditStore)
    (h1 : env.logConnOk = true) (h2 : env.initialLogWriteOk = true)
    (h3 : env.finalLogWriteOk = true) :
    ∃ ldF : LogData,
      (migrate_collection config env store).store =
        upsertOne (upsertOne store
          (initialLogData (resolvedSourceDb config) config.name
            (resolvedTargetDb config) (resolvedTargetCollection config)
            config.query env.startTime)) ldF ∧
      lookupKey ldF "source_db" = some (FieldVal.str (resolvedSourceDb config)) ∧
      lookupKey ldF "source_collection" = some (FieldVal.str config.name) ∧
      lookupKey ldF "status" =
        some (FieldVal.str (migrate_collection config env store).result.status) ∧
      (ldF.map Prod.fst).Nodup := by
  simp only [migrate_collection, update_migration_log, failOut, h1, h2, h3,
    Bool.true_eq_false, if_false, if_true, ite_true, ite_false]
  split
  · exact ⟨_, rfl, rfl, rfl, rfl, nodup_failed_fields _ _ _ _ _ _ _ _ _⟩
  · split
    · exact ⟨_, rfl, rfl, rfl, rfl, nodup_failed_fields _ _ _ _ _ _ _ _ _⟩
    · split
      · exact ⟨_, rfl, rfl, rfl, rfl, nodup_failed_fields _ _ _ _ _ _ _ _ _⟩
      · split
        · exact ⟨_, rfl, rfl, rfl, rfl, nodup_failed_fields _ _ _ _ _ _ _ _ _⟩
        · split
          · exact ⟨_, rfl, rfl, rfl, rfl, nodup_failed_fields _ _ _ _ _ _ _ _ _⟩
          · split
            · exact ⟨_, rfl, rfl, rfl, rfl, nodup_failed_fields _ _ _ _ _ _ _ _ _⟩
            · split
              · exact ⟨_, rfl, rfl, rfl, rfl, nodup_failed_fields _ _ _ _ _ _ _ _ _⟩
              · exact ⟨_, rfl, rfl, rfl, rfl, nodup_completed_fields _ _ _ _ _ _ _ _ _ _ _⟩

/-- The audit identity key of a job: the resolved source database and the
source collection name. -/
def jobKey (config : Config) : Option FieldVal × Option FieldVal :=
  (some (FieldVal.str (resolvedSourceDb config)), some (FieldVal.str config.name))

theorem initialLogData_key_fields (sdb scoll tdb tcoll : String) (q : Option String)
    (st : Nat) :
    lookupKey (initialLogData sdb scoll tdb tcoll q st) "source_db" = some (FieldVal.str sdb) ∧
    lookupKey (initialLogData sdb scoll tdb tcoll q st) "source_collection" = some (FieldVal.str scoll) ∧
    ((initialLogData sdb scoll tdb tcoll q st).map Prod.fst).Nodup := by
  refine ⟨rfl, rfl, ?_⟩
  rw [show (initialLogData sdb scoll tdb tcoll q st).map Prod.fst =
      ["source_db", "source_collection", "target_db", "target_collection", "query",
       "start_time", "status"] from rfl]
  decide

/-- Claim C5: re-running the identical job specification leaves exactly one
audit record for its identity key — the audit write is a keyed upsert, never
an insert of a duplicate — and after the second run the stored record's
`status` field is the second run's final status (last-write-wins). -/
theorem claim_C5_audit_upsert_idempotent (config : Config) (env1 env2 : Env)
    (store0 : AuditStore)
    (h0 : countByKey store0 (jobKey config) = 0)
    (h1a : env1.logConnOk = true) (h1b : env1.initialLogWriteOk = true)
    (h1c : env1.finalLogWriteOk = true)
    (h2a : env2.logConnOk = true) (h2b : env2.initialLogWriteOk = true)
    (h2c : env2.finalLogWriteOk = true) :
    countByKey
      (migrate_collection config env2 (migrate_collection config env1 store0).store).store
      (jobKey config) = 1 ∧
    statusByKey
      (migrate_collection config env2 (migrate_collection config env1 store0).store).store
      (jobKey config) =
      some (FieldVal.str
        (migrate_collection config env2 (migrate_collection config env1 store0).store).result.status) := by
  obtain ⟨ldF1, hs1, ha1, hb1, hst1, hnd1⟩ := migrate_store_shape config env1 store0 h1a h1b h1c
  obtain ⟨ldF2, hs2, ha2, hb2, hst2, hnd2⟩ :=
    migrate_store_shape config env2 (migrate_collection config env1 store0).store h2a h2b h2c
  obtain ⟨hi1a, hi1b, hi1nd⟩ := initialLogData_key_fields (resolvedSourceDb config) config.name
    (resolvedTargetDb config) (resolvedTargetCollection config) config.query env1.startTime
  obtain ⟨hi2a, hi2b, hi2nd⟩ := initialLogData_key_fields (resolvedSourceDb config) config.name
    (resolvedTargetDb config) (resolvedTargetCollection config) config.query env2.startTime
  have hkI1 : ldKey (initialLogData (resolvedSourceDb config) config.name
      (resolvedTargetDb config) (resolvedTargetCollection config) config.query env1.startTime) =
      jobKey config := by rw [ldKey, hi1a, hi1b]; rfl
  have hkI2 : ldKey (initialLogData (resolvedSourceDb config) config.name
      (resolvedTargetDb config) (resolvedTargetCollection config) config.query env2.startTime) =
      jobKey config := by rw [ldKey, hi2a, hi2b]; rfl
  have hkF1 : ldKey ldF1 = jobKey config := by rw [ldKey, ha1, hb1]; rfl
  have hkF2 : ldKey ldF2 = jobKey config := by rw [ldKey, ha2, hb2]; rfl
  have hmI1 : ∀ r, recordHasKey (applySet r (initialLogData (resolvedSourceDb config) config.name
      (resolvedTargetDb config) (resolvedTargetCollection config) config.query env1.startTime))
      (jobKey config) = true :=
    fun r => recordHasKey_applySet r _ _ _ hi1a hi1b hi1nd
  have hmI2 : ∀ r, recordHasKey (applySet r (initialLogData (resolvedSourceDb config) config.name
      (resolvedTargetDb config) (resolvedTargetCollection config) config.query env2.startTime))
      (jobKey config) = true :=
    fun r => recordHasKey_applySet r _ _ _ hi2a hi2b hi2nd
  have hmF1 : ∀ r, recordHasKey (applySet r ldF1) (jobKey config) = true :=
    fun r => recordHasKey_applySet r _ _ _ ha1 hb1 hnd1
  have hmF2 : ∀ r, recordHasKey (applySet r ldF2) (jobKey config) = true :=
    fun r => recordHasKey_applySet r _ _ _ ha2 hb2 hnd2
  have c1 : countByKey (upsertOne store0 (initialLogData (resolvedSourceDb config) config.name
      (resolvedTargetDb config) (resolvedTargetCollection config) config.query env1.startTime))
      (jobKey config) = 1 := by
    rw [countByKey_upsertOne store0 _ _ hkI1 hmI1, h0]
    rfl
  have c2 : countByKey (migrate_collection config env1 store0).store (jobKey config) = 1 := by
    rw [hs1, countByKey_upsertOne _ ldF1 _ hkF1 hmF1, c1]
    rfl
  have c3 : countByKey (upsertOne (migrate_collection config env1 store0).store
      (initialLogData (resolvedSourceDb config) config.name
        (resolvedTargetDb config) (resolvedTargetCollection config) config.query env2.startTime))
      (jobKey config) = 1 := by
    rw [countByKey_upsertOne _ _ _ hkI2 hmI2, c2]
    rfl
  have c4 : countByKey
      (migrate_collection config env2 (migrate_collection config env1 store0).store).store
      (jobKey config) = 1 := by
    rw [hs2, countByKey_upsertOne _ ldF2 _ hkF2 hmF2, c3]
    rfl
  refine ⟨c4, ?_⟩
  rw [hs2]
  exact statusByKey_upsertOne _ ldF2 _ _ _ ha2 hb2 hst2 hnd2

/-- Claim C5 witness: the same job run twice against an initially empty
audit store leaves one record whose status is `completed`. -/
theorem claim_C5_audit_upsert_idempotent_witness :
    countByKey ([] : AuditStore) (jobKey cfgPlain) = 0 ∧
    countByKey (migrate_collection cfgPlain envAllOk
      (migrate_collection cfgPlain envAllOk []).store).store (jobKey cfgPlain) = 1 ∧
    statusByKey (migrate_collection cfgPlain envAllOk
      (migrate_collection cfgPlain envAllOk []).store).store (jobKey cfgPlain) =
      some (FieldVal.str "completed") := by
  have h := claim_C5_audit_upsert_idempotent cfgPlain envAllOk envAllOk [] rfl
    rfl rfl rfl rfl rfl rfl
  exact ⟨rfl, h.1, h.2⟩
